import Mathlib

/-!
Verification development for the single-file Flask service `src/app.py`
(AWS parody page generator, Responses API variant).

The embedding models:
* JSON values and a parser for `json.loads` (fuel-based recursive descent);
* the pydantic models `FAQ` and `ServiceSpec` and their validation;
* `build_service_spec_json_schema`, `build_prompt`;
* the request handler `api_generate`, with the outcome of the one call to
  the generation capability abstracted as an enumeration of the exception
  classes the handler distinguishes, and the number of capability calls
  made returned alongside the HTTP response.
-/

set_option autoImplicit false

/-- JSON values as produced by `json.loads`.  `decimal m s` stands for the
float `m * 10 ^ s`, kept unevaluated; the service only ever inspects
strings, arrays and objects, so the exact float semantics never matter. -/
inductive Json where
  | null : Json
  | bool (b : Bool) : Json
  | num (n : Int) : Json
  | decimal (m : Int) (s : Int) : Json
  | str (s : String) : Json
  | arr (xs : List Json) : Json
  | obj (kvs : List (String × Json)) : Json

/-- Last-binding lookup, modelling the `dict` that `json.loads` builds
(later duplicate keys overwrite earlier ones) and `dict.get`. -/
def dictGet (kvs : List (String × Json)) (key : String) : Option Json :=
  match kvs with
  | [] => none
  | (k, v) :: rest =>
    match dictGet rest key with
    | some v2 => some v2
    | none => if k = key then some v else none

/-- Python `str.strip` whitespace set (ASCII part, the only part the
service's inputs exercise). -/
def isPySpace (c : Char) : Bool :=
  c = ' ' || c = '\t' || c = '\n' || c = '\r' || c = '\x0b' || c = '\x0c'

def dropWs : List Char → List Char
  | [] => []
  | c :: cs => if isPySpace c then dropWs cs else c :: cs

/-- Python `str.strip()`. -/
def pyStrip (s : String) : String :=
  String.mk (dropWs (dropWs s.data.reverse).reverse)

def pyLowerChar (c : Char) : Char :=
  if 'A' ≤ c ∧ c ≤ 'Z' then Char.ofNat (c.toNat + 32) else c

/-- Python `str.lower()` (ASCII range; the validated enums are ASCII). -/
def pyLower (s : String) : String :=
  String.mk (s.data.map pyLowerChar)

/-- Python truthiness-based `or` on an optional string:
`(d.get(k) or default)` yields `default` when the field is absent or the
empty string. -/
def pyOr (v : Option String) (default : String) : String :=
  match v with
  | some s => if s = "" then default else s
  | none => default

/-! ## A JSON parser modelling `json.loads` -/

/-- JSON inter-token whitespace (RFC 8259, as accepted by `json.loads`). -/
def skipWs : List Char → List Char
  | [] => []
  | c :: cs => if c = ' ' || c = '\t' || c = '\n' || c = '\r' then skipWs cs else c :: cs

def hexVal (c : Char) : Option Nat :=
  if '0' ≤ c ∧ c ≤ '9' then some (c.toNat - 48)
  else if 'a' ≤ c ∧ c ≤ 'f' then some (c.toNat - 87)
  else if 'A' ≤ c ∧ c ≤ 'F' then some (c.toNat - 55)
  else none

/-- Parse the remainder of a JSON string literal (the opening quote is
already consumed), honouring the escape sequences of `json.loads`. -/
def parseStringAux : Nat → List Char → List Char → Option (String × List Char)
  | 0, _, _ => none
  | _ + 1, [], _ => none
  | fuel + 1, c :: cs, acc =>
    if c = '"' then some (String.mk acc.reverse, cs)
    else if c = '\\' then
      match cs with
      | [] => none
      | e :: cs2 =>
        if e = '"' then parseStringAux fuel cs2 ('"' :: acc)
        else if e = '\\' then parseStringAux fuel cs2 ('\\' :: acc)
        else if e = '/' then parseStringAux fuel cs2 ('/' :: acc)
        else if e = 'n' then parseStringAux fuel cs2 ('\n' :: acc)
        else if e = 't' then parseStringAux fuel cs2 ('\t' :: acc)
        else if e = 'r' then parseStringAux fuel cs2 ('\r' :: acc)
        else if e = 'b' then parseStringAux fuel cs2 (Char.ofNat 8 :: acc)
        else if e = 'f' then parseStringAux fuel cs2 (Char.ofNat 12 :: acc)
        else if e = 'u' then
          match cs2 with
          | h1 :: h2 :: h3 :: h4 :: cs3 =>
            match hexVal h1, hexVal h2, hexVal h3, hexVal h4 with
            | some a, some b, some c2, some d =>
              parseStringAux fuel cs3 (Char.ofNat (((a * 16 + b) * 16 + c2) * 16 + d) :: acc)
            | _, _, _, _ => none
          | _ => none
        else none
    else parseStringAux fuel cs (c :: acc)

def takeDigits : List Char → List Char × List Char
  | [] => ([], [])
  | c :: cs =>
    if c.isDigit then
      let p := takeDigits cs
      (c :: p.1, p.2)
    else ([], c :: cs)

def digitsVal (ds : List Char) : Nat :=
  ds.foldl (fun a c => a * 10 + (c.toNat - 48)) 0

/-- Parse a JSON number token.  Integer forms become `Json.num`; any form
with a fraction or exponent becomes `Json.decimal` (a Python float). -/
def parseNumber (cs : List Char) : Option (Json × List Char) :=
  let sp : Bool × List Char :=
    match cs with
    | c :: r => if c = '-' then (true, r) else (false, cs)
    | [] => (false, cs)
  let neg := sp.1
  let ip := takeDigits sp.2
  if ip.1 = [] then none
  else if 1 < ip.1.length ∧ ip.1.headD '1' = '0' then none
  else
    let fr : List Char × List Char :=
      match ip.2 with
      | '.' :: r =>
        let fp := takeDigits r
        if fp.1 = [] then ([], ip.2) else (fp.1, fp.2)
      | _ => ([], ip.2)
    let ex : Option Int × List Char :=
      match fr.2 with
      | 'e' :: r =>
        (match r with
         | '-' :: r2 =>
           let ep := takeDigits r2
           if ep.1 = [] then (none, fr.2) else (some (-(digitsVal ep.1 : Int)), ep.2)
         | '+' :: r2 =>
           let ep := takeDigits r2
           if ep.1 = [] then (none, fr.2) else (some (digitsVal ep.1 : Int), ep.2)
         | _ =>
           let ep := takeDigits r
           if ep.1 = [] then (none, fr.2) else (some (digitsVal ep.1 : Int), ep.2))
      | 'E' :: r =>
        (match r with
         | '-' :: r2 =>
           let ep := takeDigits r2
           if ep.1 = [] then (none, fr.2) else (some (-(digitsVal ep.1 : Int)), ep.2)
         | '+' :: r2 =>
           let ep := takeDigits r2
           if ep.1 = [] then (none, fr.2) else (some (digitsVal ep.1 : Int), ep.2)
         | _ =>
           let ep := takeDigits r
           if ep.1 = [] then (none, fr.2) else (some (digitsVal ep.1 : Int), ep.2))
      | _ => (none, fr.2)
    let mNat : Nat := digitsVal (ip.1 ++ fr.1)
    let m : Int := if neg then -(mNat : Int) else (mNat : Int)
    if fr.1 = [] ∧ ex.1 = none then
      some (Json.num m, ex.2)
    else
      some (Json.decimal m ((ex.1.getD 0) - (fr.1.length : Int)), ex.2)

mutual

/-- Recursive-descent JSON value parser; fuel bounds the recursion depth
and the number of aggregate members, and `jsonLoads` supplies more fuel
than any input can consume. -/
def parseVal : Nat → List Char → Option (Json × List Char)
  | 0, _ => none
  | fuel + 1, cs =>
    match skipWs cs with
    | [] => none
    | '{' :: rest =>
      (match skipWs rest with
       | '}' :: r2 => some (Json.obj [], r2)
       | r =>
         match parseMembers fuel r with
         | some (kvs, r2) => some (Json.obj kvs, r2)
         | none => none)
    | '[' :: rest =>
      (match skipWs rest with
       | ']' :: r2 => some (Json.arr [], r2)
       | r =>
         match parseItems fuel r with
         | some (xs, r2) => some (Json.arr xs, r2)
         | none => none)
    | '"' :: rest =>
      (match parseStringAux (rest.length + 1) rest [] with
       | some (s, r2) => some (Json.str s, r2)
       | none => none)
    | 't' :: 'r' :: 'u' :: 'e' :: r => some (Json.bool true, r)
    | 'f' :: 'a' :: 'l' :: 's' :: 'e' :: r => some (Json.bool false, r)
    | 'n' :: 'u' :: 'l' :: 'l' :: r => some (Json.null, r)
    | c :: r => if c = '-' || c.isDigit then parseNumber (c :: r) else none

def parseItems : Nat → List Char → Option (List Json × List Char)
  | 0, _ => none
  | fuel + 1, cs =>
    match parseVal fuel cs with
    | none => none
    | some (v, r) =>
      match skipWs r with
      | ',' :: r2 =>
        (match parseItems fuel r2 with
         | some (xs, r3) => some (v :: xs, r3)
         | none => none)
      | ']' :: r2 => some ([v], r2)
      | _ => none

def parseMembers : Nat → List Char → Option (List (String × Json) × List Char)
  | 0, _ => none
  | fuel + 1, cs =>
    match skipWs cs with
    | '"' :: rest =>
      (match parseStringAux (rest.length + 1) rest [] with
       | none => none
       | some (k, r) =>
         match skipWs r with
         | ':' :: r2 =>
           (match parseVal fuel r2 with
            | none => none
            | some (v, r3) =>
              match skipWs r3 with
              | ',' :: r4 =>
                (match parseMembers fuel r4 with
                 | some (kvs, r5) => some ((k, v) :: kvs, r5)
                 | none => none)
              | '}' :: r4 => some ([(k, v)], r4)
              | _ => none)
         | _ => none)
    | _ => none

end

/-- `json.loads`: parse one JSON document, requiring only whitespace after
it; any failure raises `json.JSONDecodeError`, modelled as `none`. -/
def jsonLoads (text : String) : Option Json :=
  match parseVal (text.length + 1) text.data with
  | some (v, rest) => if skipWs rest = [] then some v else none
  | none => none


/-! ## Pydantic models `FAQ` and `ServiceSpec` and their validation -/

/-- `class FAQ(BaseModel)`: one FAQ entry. -/
structure FAQ where
  q : String
  a : String

/-- `class ServiceSpec(BaseModel)`: the generated artifact.  The four
string fields are declared required (`Field(...)`); every list field is
declared with `default_factory=list`. -/
structure ServiceSpec where
  service_name : String
  tagline : String
  summary : String
  highlights : List String
  features : List String
  integrations : List String
  getting_started : List String
  pricing : List String
  sample_cli : String
  faqs : List FAQ

/-- Pydantic coercion of a JSON value into `str`: only JSON strings are
accepted (pydantic v2 does not coerce numbers, booleans or null to str). -/
def asStr : Option Json → Option String
  | some (Json.str s) => some s
  | _ => none

def asStrJsonList : List Json → Option (List String)
  | [] => some []
  | Json.str s :: xs =>
    (match asStrJsonList xs with
     | some rest => some (s :: rest)
     | none => none)
  | _ => none

/-- A `List[str]` field with `default_factory=list`: absent means `[]`,
present means the value must be a JSON array of strings. -/
def strListField (kvs : List (String × Json)) (key : String) : Option (List String) :=
  match dictGet kvs key with
  | none => some []
  | some (Json.arr xs) => asStrJsonList xs
  | some _ => none

/-- Validation of one `FAQ` item: a JSON object with string `q` and `a`
(extra keys are ignored, pydantic's default). -/
def validateFAQ : Json → Option FAQ
  | Json.obj kvs =>
    (match asStr (dictGet kvs "q"), asStr (dictGet kvs "a") with
     | some q, some a => some ⟨q, a⟩
     | _, _ => none)
  | _ => none

def faqJsonList : List Json → Option (List FAQ)
  | [] => some []
  | x :: xs =>
    match validateFAQ x with
    | none => none
    | some f =>
      match faqJsonList xs with
      | some rest => some (f :: rest)
      | none => none

/-- The `faqs: List[FAQ]` field with `default_factory=list`. -/
def faqListField (kvs : List (String × Json)) : Option (List FAQ) :=
  match dictGet kvs "faqs" with
  | none => some []
  | some (Json.arr xs) => faqJsonList xs
  | some _ => none

/-- `ServiceSpec.model_validate(obj)`: `none` models a raised
`pydantic.ValidationError`. -/
def serviceSpecValidate : Json → Option ServiceSpec
  | Json.obj kvs =>
    (match asStr (dictGet kvs "service_name"), asStr (dictGet kvs "tagline"),
           asStr (dictGet kvs "summary"), asStr (dictGet kvs "sample_cli") with
     | some sn, some tg, some sm, some sc =>
       (match strListField kvs "highlights", strListField kvs "features",
              strListField kvs "integrations", strListField kvs "getting_started",
              strListField kvs "pricing", faqListField kvs with
        | some hl, some ft, some ig, some gs, some pr, some fq =>
          some ⟨sn, tg, sm, hl, ft, ig, gs, pr, sc, fq⟩
        | _, _, _, _, _, _ => none)
     | _, _, _, _ => none)
  | _ => none

def FAQ.toJson (f : FAQ) : Json :=
  Json.obj [("q", Json.str f.q), ("a", Json.str f.a)]

/-- `jsonify(spec.model_dump())`: the success body (key order is not part
of the contract and is modelled as declaration order). -/
def ServiceSpec.toJson (s : ServiceSpec) : Json :=
  Json.obj
    [("service_name", Json.str s.service_name),
     ("tagline", Json.str s.tagline),
     ("summary", Json.str s.summary),
     ("highlights", Json.arr (s.highlights.map Json.str)),
     ("features", Json.arr (s.features.map Json.str)),
     ("integrations", Json.arr (s.integrations.map Json.str)),
     ("getting_started", Json.arr (s.getting_started.map Json.str)),
     ("pricing", Json.arr (s.pricing.map Json.str)),
     ("sample_cli", Json.str s.sample_cli),
     ("faqs", Json.arr (s.faqs.map FAQ.toJson))]

/-! ## `build_service_spec_json_schema` -/

/-- `build_service_spec_json_schema(lang)`: the strict JSON Schema sent to
the Responses API, transcribed field for field from the source. -/
def build_service_spec_json_schema (lang : String) : Json :=
  Json.obj
    [("name", Json.str "service_spec"),
     ("strict", Json.bool true),
     ("schema", Json.obj
       [("type", Json.str "object"),
        ("additionalProperties", Json.bool false),
        ("description", Json.str
          ("AWSの公式製品ページ風パロディの構造化出力。各フィールドはAWS構文（完全マネージド/スケーラブル/セキュア/高可用/シームレス統合）の文体で記述する。出力言語: "
            ++ (if lang = "ja" then "日本語" else "English") ++ "。")),
        ("properties", Json.obj
          [("service_name", Json.obj
             [("type", Json.str "string"),
              ("description", Json.str "サービス名。例: AWS Elastic <Term> / Amazon <Term> Service。商標表記は避けて“風”の命名でも可。")]),
           ("tagline", Json.obj
             [("type", Json.str "string"),
              ("description", Json.str "短いキャッチ。1文で価値を要約（誇張は控えめにリアル寄せ）。")]),
           ("summary", Json.obj
             [("type", Json.str "string"),
              ("description", Json.str "冒頭概要。完全マネージド・スケーラブル・セキュア・高可用・統合を強調。")]),
           ("highlights", Json.obj
             [("type", Json.str "array"),
              ("description", Json.str "トップの便益サマリ。3〜5項目。"),
              ("minItems", Json.num 3),
              ("maxItems", Json.num 5),
              ("items", Json.obj
                [("type", Json.str "string"),
                 ("description", Json.str "便益を短く明快に述べた1行。")])]),
           ("features", Json.obj
             [("type", Json.str "array"),
              ("description", Json.str "主な機能。5〜7項目。具体的・実務的な価値を示す。"),
              ("minItems", Json.num 5),
              ("maxItems", Json.num 7),
              ("items", Json.obj
                [("type", Json.str "string"),
                 ("description", Json.str "個別の機能説明（AWS構文の語彙を適宜使用）。")])]),
           ("integrations", Json.obj
             [("type", Json.str "array"),
              ("description", Json.str "統合可能な（AWS風の）サービス名。5〜10個。"),
              ("minItems", Json.num 5),
              ("maxItems", Json.num 10),
              ("items", Json.obj
                [("type", Json.str "string"),
                 ("description", Json.str "例: IAM, VPC, CloudWatch, ALB, Lambda, S3, RDS, KMS, ECR 等。")])]),
           ("getting_started", Json.obj
             [("type", Json.str "array"),
              ("description", Json.str "導入手順。4〜7ステップ。初期設定からデプロイ・監視まで。"),
              ("minItems", Json.num 4),
              ("maxItems", Json.num 7),
              ("items", Json.obj
                [("type", Json.str "string"),
                 ("description", Json.str "操作手順を簡潔に1文で。")])]),
           ("pricing", Json.obj
             [("type", Json.str "array"),
              ("description", Json.str "料金説明。3〜5項目。課金単位や無料枠・別料金（転送料など）を明記。"),
              ("minItems", Json.num 3),
              ("maxItems", Json.num 5),
              ("items", Json.obj
                [("type", Json.str "string"),
                 ("description", Json.str "料金の観点（課金要素/無料枠/注意点）。")])]),
           ("sample_cli", Json.obj
             [("type", Json.str "string"),
              ("description", Json.str "CLIの使用例。コードフェンス無しの平文1ブロック。")]),
           ("faqs", Json.obj
             [("type", Json.str "array"),
              ("description", Json.str "FAQ配列。3〜5項目。"),
              ("minItems", Json.num 3),
              ("maxItems", Json.num 5),
              ("items", Json.obj
                [("type", Json.str "object"),
                 ("additionalProperties", Json.bool false),
                 ("description", Json.str "FAQの1項目（QとA）。"),
                 ("properties", Json.obj
                   [("q", Json.obj
                      [("type", Json.str "string"),
                       ("description", Json.str "質問文。具体的で検索されやすい表現。")]),
                    ("a", Json.obj
                      [("type", Json.str "string"),
                       ("description", Json.str "回答文。余計な免責や前置きは避け、端的に答える。")])]),
                 ("required", Json.arr [Json.str "q", Json.str "a"])])])]),
        ("required", Json.arr
          [Json.str "service_name", Json.str "tagline", Json.str "summary",
           Json.str "highlights", Json.str "features", Json.str "integrations",
           Json.str "getting_started", Json.str "pricing", Json.str "sample_cli",
           Json.str "faqs"])])]

/-! ## `build_prompt` -/

/-- `build_prompt(term, lang, tone)`: deterministic instruction string. -/
def build_prompt (term lang tone : String) : String :=
  let lang_inst := if lang = "ja" then "出力言語は日本語。" else "Output language is English."
  let spice :=
    if lang = "ja" then
      (if tone = "standard" then "やや誇張して" else "強めに誇張して")
    else
      (if tone = "standard" then "with a slightly grand tone" else "with an aggressively grand tone")
  "You are an expert AWS product marketer and solutions architect. "
    ++ "Create a *parody* AWS-style product page description for the arbitrary term below, "
    ++ "in the tone of official AWS docs (fully managed, scalable, secure, highly available, seamless integrations). "
    ++ "Arbitrary term: " ++ term ++ "\n"
    ++ lang_inst ++ "\n"
    ++ "Tone: " ++ spice ++ "\n"
    ++ "Do not include legal claims or real SLAs; keep it fictional but plausible.\n"
    ++ "Fill every field in the provided JSON Schema faithfully."

/-! ## The request handler `api_generate` -/

/-- The process environment as read by the handler:
`os.getenv("OPENAI_API_KEY")` and `os.getenv("OPENAI_MODEL", ...)`. -/
structure Env where
  openai_api_key : Option String
  openai_model : Option String

/-- The request body fields the handler reads via `data.get`; a missing or
non-JSON body yields all-absent fields (`get_json(silent=True) or \x7b\x7d`). -/
structure ReqData where
  term : Option String
  lang : Option String
  tone : Option String

/-- The outcome of the single call `client.generate(prompt, lang=lang)`,
enumerating exactly the exception classes the handler's `except` arms
distinguish, or the raw text returned on success. -/
inductive GenOutcome where
  | ok (text : String)
  | rateLimitError (msg : String)
  | apiTimeoutError (msg : String)
  | apiConnectionError (msg : String)
  | apiStatusError (status : Option Nat) (msg : String)
  | openAIError (msg : String)
  | otherExc (msg : String)

/-- An HTTP response: status code plus the jsonified body. -/
structure HandlerResult where
  status : Nat
  body : Json

/-- `jsonify(\x7b"error": msg\x7d)`. -/
def errorBody (msg : String) : Json :=
  Json.obj [("error", Json.str msg)]

/-- `(data.get("term") or "").strip()`. -/
def normTerm (d : ReqData) : String := pyStrip (pyOr d.term "")

/-- `(data.get("lang") or "ja").strip().lower()`. -/
def normLang (d : ReqData) : String := pyLower (pyStrip (pyOr d.lang "ja"))

/-- `(data.get("tone") or "standard").strip().lower()`. -/
def normTone (d : ReqData) : String := pyLower (pyStrip (pyOr d.tone "standard"))

/-- The message of the `APIStatusError` arm, branching on `status_code`
exactly as the source does (the final arm interpolates the code). -/
def apiStatusErrorMessage (status : Option Nat) : String :=
  match status with
  | some 401 => "LLM認証に失敗しました。APIキー設定を確認してください。"
  | some 404 => "指定のモデルやリソースが見つかりません。モデル名や設定を確認してください。"
  | some 400 => "LLMへの要求が不正です。プロンプト/パラメータを見直してください。"
  | some 422 => "要求が処理できませんでした。JSON Schema の制約や複雑さを見直してください。"
  | some 409 => "競合エラーが発生しました。再試行してください。"
  | some c =>
    if 500 ≤ c then "LLM側内部エラーが発生しました。"
    else "LLM呼び出しでHTTPエラーが発生しました（status=" ++ toString c ++ "）。"
  | none => "LLM呼び出しでHTTPエラーが発生しました（status=None）。"

/-- The `try` block and its `except` arms: on success the raw text is
decoded with `json.loads` and validated with
`ServiceSpec.model_validate`; every failure is mapped to an error
response.  There is no fence stripping between `generate` and
`json.loads` in this source. -/
def handleOutcome (outcome : GenOutcome) : HandlerResult :=
  match outcome with
  | GenOutcome.ok text =>
    (match jsonLoads text with
     | none => ⟨502, errorBody "LLM出力が不正なJSONでした。"⟩
     | some obj =>
       match serviceSpecValidate obj with
       | none => ⟨502, errorBody "LLM出力の検証に失敗しました。"⟩
       | some spec => ⟨200, spec.toJson⟩)
  | GenOutcome.rateLimitError _ =>
    ⟨502, errorBody "LLM呼び出しがレート制限に達しました。時間を置いて再試行してください。"⟩
  | GenOutcome.apiTimeoutError _ =>
    ⟨502, errorBody "LLM応答がタイムアウトしました。"⟩
  | GenOutcome.apiConnectionError _ =>
    ⟨502, errorBody "LLM接続エラーが発生しました。ネットワーク/エンドポイントを確認してください。"⟩
  | GenOutcome.apiStatusError st _ =>
    ⟨502, errorBody (apiStatusErrorMessage st)⟩
  | GenOutcome.openAIError _ =>
    ⟨502, errorBody "LLM呼び出し中にエラーが発生しました。"⟩
  | GenOutcome.otherExc _ =>
    ⟨502, errorBody "不明なサーバエラーが発生しました。"⟩

/-- `POST /api/generate`.  Returns the HTTP response together with the
number of calls made to the generation capability (0 or 1).  The guard
chain mirrors the source: term, lang and tone validation, then the
`OPENAI_API_KEY` check (`if not api_key` is also true for the empty
string), then the single `client.generate` call inside `try`. -/
def api_generate (env : Env) (data : ReqData) (outcome : GenOutcome) : HandlerResult × Nat :=
  if normTerm data = "" then
    (⟨400, errorBody "term は必須です"⟩, 0)
  else if normLang data ≠ "ja" ∧ normLang data ≠ "en" then
    (⟨400, errorBody "lang は \x27ja\x27 または \x27en\x27 を指定してください"⟩, 0)
  else if normTone data ≠ "standard" ∧ normTone data ≠ "overkill" then
    (⟨400, errorBody "tone は \x27standard\x27 または \x27overkill\x27 を指定してください"⟩, 0)
  else
    -- here the source computes `build_prompt(term, lang, tone)` and reads
    -- `OPENAI_MODEL` (default "gpt-4o-mini"); neither value influences the
    -- response or the call count, so they do not appear in the result
    if env.openai_api_key = none ∨ env.openai_api_key = some "" then
      (⟨500, errorBody "サーバ設定エラー: OPENAI_API_KEY が未設定です"⟩, 0)
    else
      (handleOutcome outcome, 1)

/-! ## Fence stripping (spec side only) -/

def splitLinesAux : List Char → List Char → List String
  | [], acc => [String.mk acc.reverse]
  | c :: cs, acc =>
    if c = '\n' then String.mk acc.reverse :: splitLinesAux cs []
    else splitLinesAux cs (c :: acc)

def splitLines (s : String) : List String := splitLinesAux s.data []

def joinLines : List String → String
  | [] => ""
  | [l] => l
  | l :: ls => l ++ "\n" ++ joinLines ls

def hasLead : List Char → List Char → Bool
  | [], _ => true
  | _ :: _, [] => false
  | p :: ps, c :: cs => p = c && hasLead ps cs

/-- Modelled from the spec: `src/app.py` performs no fence stripping
before `json.loads`; this definition renders the spec sentence "any
leading/trailing fenced-code-block markers (triple-backtick lines, with
or without a language tag) present in the raw text must be stripped
before JSON parsing" so the code path can be compared against it. -/
def stripFences (text : String) : String :=
  let ls := splitLines text
  let ls2 :=
    match ls with
    | first :: rest => if hasLead "```".data (pyStrip first).data then rest else first :: rest
    | [] => []
  let ls3 :=
    match ls2.getLast? with
    | some last => if pyStrip last = "```" then ls2.dropLast else ls2
    | none => ls2
  joinLines ls3


/-! ## Request predicates and fixtures -/

/-- The three validation conditions of the handler, on the normalized
(`or`-defaulted, stripped, lowered) field values. -/
def validReq (d : ReqData) : Prop :=
  normTerm d ≠ "" ∧ (normLang d = "ja" ∨ normLang d = "en") ∧
    (normTone d = "standard" ∨ normTone d = "overkill")

/-- `OPENAI_API_KEY` is set and non-empty (`if not api_key` is false). -/
def hasApiKey (e : Env) : Prop :=
  e.openai_api_key ≠ none ∧ e.openai_api_key ≠ some ""

instance (d : ReqData) : Decidable (validReq d) := by
  unfold validReq
  infer_instance

instance (e : Env) : Decidable (hasApiKey e) := by
  unfold hasApiKey
  infer_instance

def envK : Env := ⟨some "test-key", none⟩

def envNoKey : Env := ⟨none, none⟩

def reqOk : ReqData := ⟨some "coffee", some "ja", some "standard"⟩

def reqBadLang : ReqData := ⟨some "coffee", some "fr", some "standard"⟩

def reqEmptyTerm : ReqData := ⟨some "", some "ja", some "standard"⟩

/-! ## Further definitions used by the claims -/

/-- The key/value pairs of a JSON object body (used to inspect response
bodies; non-objects have no fields). -/
def bodyFields : Json → List (String × Json)
  | Json.obj kvs => kvs
  | _ => []

/-- A fenced raw text, as the generation capability may return despite the
"plain JSON only" instruction. -/
def fencedText : String := "```json\n\x7b\"service_name\": \"Amazon Example\"\x7d\n```"

/-- A generated payload missing the required `sample_cli` field. -/
def missingCliText : String :=
  "\x7b\"service_name\": \"a\", \"tagline\": \"b\", \"summary\": \"c\"\x7d"

def missingCliKvs : List (String × Json) :=
  [("service_name", Json.str "a"), ("tagline", Json.str "b"), ("summary", Json.str "c")]

/-- A generated payload carrying the four required scalar fields and a
`features` array of plain strings; every other declared field is absent. -/
def specObjKvs (xs : List String) : List (String × Json) :=
  [("service_name", Json.str "Amazon Example"), ("tagline", Json.str "t"),
   ("summary", Json.str "s"), ("sample_cli", Json.str "aws example"),
   ("features", Json.arr (xs.map Json.str))]

def specObjWith (xs : List String) : Json := Json.obj (specObjKvs xs)

/-- The `features` property subschema exactly as built by
`build_service_spec_json_schema` (an array of strings, 5 to 7 items). -/
def featuresNode : Json :=
  Json.obj
    [("type", Json.str "array"),
     ("description", Json.str "主な機能。5〜7項目。具体的・実務的な価値を示す。"),
     ("minItems", Json.num 5),
     ("maxItems", Json.num 7),
     ("items", Json.obj
       [("type", Json.str "string"),
        ("description", Json.str "個別の機能説明（AWS構文の語彙を適宜使用）。")])]

/-- Navigate the built schema document to the `features` property. -/
def featuresSchemaOf (lang : String) : Option Json :=
  match build_service_spec_json_schema lang with
  | Json.obj kvs =>
    (match dictGet kvs "schema" with
     | some (Json.obj skvs) =>
       (match dictGet skvs "properties" with
        | some (Json.obj props) => dictGet props "features"
        | _ => none)
     | _ => none)
  | _ => none

def memStr (k : String) : List String → Bool
  | [] => false
  | x :: xs => if x = k then true else memStr k xs

def subsetStr : List String → List String → Bool
  | [], _ => true
  | x :: xs, ys => memStr x ys && subsetStr xs ys

def reqStrings : Json → Option (List String)
  | Json.arr xs => asStrJsonList xs
  | _ => none

/-- The strictness condition on a single schema node: whenever the node
declares `type: object`, its `required` list must name exactly its
declared property keys (set equality) and `additionalProperties` must be
`false`; nodes of other types are unconstrained. -/
def nodeStrictOk (kvs : List (String × Json)) : Bool :=
  match dictGet kvs "type" with
  | some (Json.str t) =>
    if t = "object" then
      (match dictGet kvs "additionalProperties" with
       | some (Json.bool false) => true
       | _ => false)
      &&
      (match dictGet kvs "properties" with
       | some (Json.obj props) =>
         (match dictGet kvs "required" with
          | some rj =>
            (match reqStrings rj with
             | some reqs =>
               subsetStr (props.map Prod.fst) reqs && subsetStr reqs (props.map Prod.fst)
             | none => false)
          | none => false)
       | _ => false)
    else true
  | _ => true

mutual

/-- Check `nodeStrictOk` on every node of a JSON document (fuel-bounded
walk; exhausted fuel conservatively fails). -/
def checkStrictF : Nat → Json → Bool
  | 0, _ => false
  | fuel + 1, Json.obj kvs => nodeStrictOk kvs && checkKvsF fuel kvs
  | fuel + 1, Json.arr xs => checkListF fuel xs
  | _ + 1, _ => true

def checkListF : Nat → List Json → Bool
  | _, [] => true
  | 0, _ :: _ => false
  | fuel + 1, x :: xs => checkStrictF fuel x && checkListF fuel xs

def checkKvsF : Nat → List (String × Json) → Bool
  | _, [] => true
  | 0, _ :: _ => false
  | fuel + 1, kv :: xs => checkStrictF fuel kv.2 && checkKvsF fuel xs

end

def objectNodesStrict (j : Json) : Bool := checkStrictF 1000 j

/-! ## Helper lemmas about the handler -/

lemma api_generate_try (env : Env) (data : ReqData) (outcome : GenOutcome)
    (h1 : normTerm data ≠ "")
    (h2 : normLang data = "ja" ∨ normLang data = "en")
    (h3 : normTone data = "standard" ∨ normTone data = "overkill")
    (h4 : env.openai_api_key ≠ none) (h5 : env.openai_api_key ≠ some "") :
    api_generate env data outcome = (handleOutcome outcome, 1) := by
  have h2n : ¬(normLang data ≠ "ja" ∧ normLang data ≠ "en") := by
    rcases h2 with e | e <;> simp [e]
  have h3n : ¬(normTone data ≠ "standard" ∧ normTone data ≠ "overkill") := by
    rcases h3 with e | e <;> simp [e]
  have h4n : ¬(env.openai_api_key = none ∨ env.openai_api_key = some "") := by
    rintro (h | h)
    · exact h4 h
    · exact h5 h
  unfold api_generate
  rw [if_neg h1, if_neg h2n, if_neg h3n, if_neg h4n]

lemma api_generate_invalid (env : Env) (data : ReqData) (outcome : GenOutcome)
    (h : normTerm data = "" ∨ (normLang data ≠ "ja" ∧ normLang data ≠ "en") ∨
         (normTone data ≠ "standard" ∧ normTone data ≠ "overkill")) :
    ∃ m, api_generate env data outcome = (⟨400, errorBody m⟩, 0) ∧ m ≠ "" := by
  unfold api_generate
  by_cases h1 : normTerm data = ""
  · rw [if_pos h1]
    exact ⟨_, rfl, by decide⟩
  · rw [if_neg h1]
    by_cases h2 : normLang data ≠ "ja" ∧ normLang data ≠ "en"
    · rw [if_pos h2]
      exact ⟨_, rfl, by decide⟩
    · rw [if_neg h2]
      have h3 : normTone data ≠ "standard" ∧ normTone data ≠ "overkill" := by
        rcases h with h | h | h
        · exact absurd h h1
        · exact absurd h h2
        · exact h
      rw [if_pos h3]
      exact ⟨_, rfl, by decide⟩

lemma api_generate_enum (env : Env) (data : ReqData) (outcome : GenOutcome) :
    ((api_generate env data outcome).1.status = 400 ∧ (api_generate env data outcome).2 = 0) ∨
    ((api_generate env data outcome).1.status = 500 ∧ (api_generate env data outcome).2 = 0) ∨
    ((api_generate env data outcome).1 = handleOutcome outcome ∧
      (api_generate env data outcome).2 = 1) := by
  unfold api_generate
  split
  · exact Or.inl ⟨rfl, rfl⟩
  · split
    · exact Or.inl ⟨rfl, rfl⟩
    · split
      · exact Or.inl ⟨rfl, rfl⟩
      · split
        · exact Or.inr (Or.inl ⟨rfl, rfl⟩)
        · exact Or.inr (Or.inr ⟨rfl, rfl⟩)

lemma handleOutcome_status (o : GenOutcome) :
    (handleOutcome o).status = 200 ∨ (handleOutcome o).status = 502 := by
  cases o with
  | ok text =>
    unfold handleOutcome
    rcases hj : jsonLoads text with _ | j
    · simp [hj]
    · rcases hv : serviceSpecValidate j with _ | s <;> simp [hj, hv]
  | rateLimitError m => exact Or.inr rfl
  | apiTimeoutError m => exact Or.inr rfl
  | apiConnectionError m => exact Or.inr rfl
  | apiStatusError st m => exact Or.inr rfl
  | openAIError m => exact Or.inr rfl
  | otherExc m => exact Or.inr rfl

lemma asStrJsonList_map (xs : List String) : asStrJsonList (xs.map Json.str) = some xs := by
  induction xs with
  | nil => rfl
  | cons x xs ih => simp [asStrJsonList, ih]

lemma validate_none_of_missing (kvs : List (String × Json))
    (h : asStr (dictGet kvs "service_name") = none ∨ asStr (dictGet kvs "tagline") = none ∨
         asStr (dictGet kvs "summary") = none ∨ asStr (dictGet kvs "sample_cli") = none) :
    serviceSpecValidate (Json.obj kvs) = none := by
  rcases h1 : asStr (dictGet kvs "service_name") with _ | a
  · simp [serviceSpecValidate, h1]
  · rcases h2 : asStr (dictGet kvs "tagline") with _ | b
    · simp [serviceSpecValidate, h1, h2]
    · rcases h3 : asStr (dictGet kvs "summary") with _ | c
      · simp [serviceSpecValidate, h1, h2, h3]
      · rcases h4 : asStr (dictGet kvs "sample_cli") with _ | d
        · simp [serviceSpecValidate, h1, h2, h3, h4]
        · rcases h with h | h | h | h <;> simp_all

lemma specObjWith_validate (xs : List String) :
    serviceSpecValidate (specObjWith xs) =
      some ⟨"Amazon Example", "t", "s", [], xs, [], [], [], "aws example", []⟩ := by
  have h1 : dictGet (specObjKvs xs) "features" = some (Json.arr (xs.map Json.str)) := rfl
  have h2 : strListField (specObjKvs xs) "features" = some xs := by
    simp only [strListField, h1, asStrJsonList_map]
  simp [specObjWith, specObjKvs, serviceSpecValidate, dictGet, asStr, strListField,
    faqListField, asStrJsonList_map]

/-! ## Claims -/

/-- C1 counterexample: with a valid body and the credential set, a
rate-limit error from the generation capability is answered with status
502, not 429 as the claim states. -/
theorem rate_limited_not_429 :
    (api_generate envK reqOk (GenOutcome.rateLimitError "quota")).1.status ≠ 429 ∧
    (api_generate envK reqOk (GenOutcome.rateLimitError "quota")).1.status = 502 := by
  exact ⟨by decide, rfl⟩

/-- C1 (amended): for every valid request with the credential set, a
rate-limit error from the generation capability yields HTTP 502 (not
429), with a JSON body whose `error` field is the fixed rate-limit
message, which contains the substring "レート制限" (rate limit). -/
theorem rate_limited_maps_to_502 (env : Env) (data : ReqData) (msg : String)
    (hv : validReq data) (hk : hasApiKey env) :
    api_generate env data (GenOutcome.rateLimitError msg) =
      (⟨502, errorBody "LLM呼び出しがレート制限に達しました。時間を置いて再試行してください。"⟩, 1) ∧
    "LLM呼び出しがレート制限に達しました。時間を置いて再試行してください。" =
      "LLM呼び出しが" ++ "レート制限" ++ "に達しました。時間を置いて再試行してください。" := by
  refine ⟨?_, rfl⟩
  rw [api_generate_try env data _ hv.1 hv.2.1 hv.2.2 hk.1 hk.2]
  rfl

/-- C1 witness. -/
theorem rate_limited_maps_to_502_witness :
    validReq reqOk ∧ hasApiKey envK ∧
    api_generate envK reqOk (GenOutcome.rateLimitError "quota") =
      (⟨502, errorBody "LLM呼び出しがレート制限に達しました。時間を置いて再試行してください。"⟩, 1) :=
  ⟨by decide, by decide,
   (rate_limited_maps_to_502 envK reqOk "quota" (by decide) (by decide)).1⟩

/-- C2: every request whose normalized keyword is empty, or whose
normalized lang is outside \x7b"ja","en"\x7d, or whose normalized tone is
outside \x7b"standard","overkill"\x7d, is answered 400 with a JSON body whose
`error` field is a non-empty string. -/
theorem invalid_request_yields_400 (env : Env) (data : ReqData) (outcome : GenOutcome)
    (h : normTerm data = "" ∨ (normLang data ≠ "ja" ∧ normLang data ≠ "en") ∨
         (normTone data ≠ "standard" ∧ normTone data ≠ "overkill")) :
    (api_generate env data outcome).1.status = 400 ∧
    ∃ m, (api_generate env data outcome).1.body = errorBody m ∧ m ≠ "" := by
  obtain ⟨m, he, hm⟩ := api_generate_invalid env data outcome h
  rw [he]
  exact ⟨rfl, m, rfl, hm⟩

/-- C2 witness. -/
theorem invalid_request_yields_400_witness :
    (normLang reqBadLang ≠ "ja" ∧ normLang reqBadLang ≠ "en") ∧
    (api_generate envK reqBadLang (GenOutcome.ok "x")).1.status = 400 ∧
    ∃ m, (api_generate envK reqBadLang (GenOutcome.ok "x")).1.body = errorBody m ∧ m ≠ "" :=
  ⟨by decide,
   invalid_request_yields_400 envK reqBadLang (GenOutcome.ok "x") (Or.inr (Or.inl (by decide)))⟩

/-- C6: whenever the handler answers 400, zero calls to the generation
capability have been made. -/
theorem status_400_implies_no_generation_call (env : Env) (data : ReqData)
    (outcome : GenOutcome) (h : (api_generate env data outcome).1.status = 400) :
    (api_generate env data outcome).2 = 0 := by
  rcases api_generate_enum env data outcome with ⟨_, h0⟩ | ⟨_, h0⟩ | ⟨h1, _⟩
  · exact h0
  · exact h0
  · exfalso
    rw [h1] at h
    rcases handleOutcome_status outcome with hs | hs <;> rw [hs] at h <;> exact absurd h (by decide)

/-- C6 witness. -/
theorem status_400_implies_no_generation_call_witness :
    (api_generate envK reqEmptyTerm (GenOutcome.ok "x")).1.status = 400 ∧
    (api_generate envK reqEmptyTerm (GenOutcome.ok "x")).2 = 0 :=
  ⟨rfl, status_400_implies_no_generation_call envK reqEmptyTerm (GenOutcome.ok "x") rfl⟩

/-- C7 counterexample: on an unclassified failure the body's `error` field
is the fixed Japanese message, not the literal "UnexpectedError", and the
body has no separate `message` field. -/
theorem unexpected_body_lacks_UnexpectedError :
    (api_generate envK reqOk (GenOutcome.otherExc "boom")).1.status = 502 ∧
    asStr (dictGet (bodyFields ((api_generate envK reqOk (GenOutcome.otherExc "boom")).1.body))
      "error") = some "不明なサーバエラーが発生しました。" ∧
    ("不明なサーバエラーが発生しました。" : String) ≠ "UnexpectedError" ∧
    dictGet (bodyFields ((api_generate envK reqOk (GenOutcome.otherExc "boom")).1.body))
      "message" = none :=
  ⟨rfl, rfl, by decide, rfl⟩

/-- C7 (amended): every capability outcome is mapped to an HTTP response
with status in \x7b200, 400, 500, 502\x7d (no failure escapes the handler), and
an unclassified failure on a valid, credentialed request yields 502 with
a JSON body whose single `error` field is a short fixed message (not the
literal "UnexpectedError", and with no separate `message` field). -/
theorem all_failures_mapped_unexpected_502 (env : Env) (data : ReqData)
    (outcome : GenOutcome) (msg : String) :
    ((api_generate env data outcome).1.status = 200 ∨
     (api_generate env data outcome).1.status = 400 ∨
     (api_generate env data outcome).1.status = 500 ∨
     (api_generate env data outcome).1.status = 502) ∧
    (validReq data → hasApiKey env →
      api_generate env data (GenOutcome.otherExc msg) =
        (⟨502, errorBody "不明なサーバエラーが発生しました。"⟩, 1)) := by
  constructor
  · rcases api_generate_enum env data outcome with ⟨h, _⟩ | ⟨h, _⟩ | ⟨h, _⟩
    · exact Or.inr (Or.inl h)
    · exact Or.inr (Or.inr (Or.inl h))
    · rw [h]
      rcases handleOutcome_status outcome with hs | hs
      · exact Or.inl hs
      · exact Or.inr (Or.inr (Or.inr hs))
  · intro hv hk
    rw [api_generate_try env data _ hv.1 hv.2.1 hv.2.2 hk.1 hk.2]
    rfl

/-- C7 witness. -/
theorem all_failures_mapped_unexpected_502_witness :
    validReq reqOk ∧ hasApiKey envK ∧
    ((api_generate envK reqOk (GenOutcome.apiTimeoutError "t")).1.status = 200 ∨
     (api_generate envK reqOk (GenOutcome.apiTimeoutError "t")).1.status = 400 ∨
     (api_generate envK reqOk (GenOutcome.apiTimeoutError "t")).1.status = 500 ∨
     (api_generate envK reqOk (GenOutcome.apiTimeoutError "t")).1.status = 502) ∧
    api_generate envK reqOk (GenOutcome.otherExc "crash") =
      (⟨502, errorBody "不明なサーバエラーが発生しました。"⟩, 1) :=
  ⟨by decide, by decide,
   (all_failures_mapped_unexpected_502 envK reqOk (GenOutcome.apiTimeoutError "t") "crash").1,
   (all_failures_mapped_unexpected_502 envK reqOk (GenOutcome.apiTimeoutError "t") "crash").2
     (by decide) (by decide)⟩

/-- C9: a valid request with `OPENAI_API_KEY` absent from the environment
is answered 500 with the fixed configuration-error message, and zero
calls to the generation capability are made. -/
theorem missing_credential_yields_500_no_call (env : Env) (data : ReqData)
    (outcome : GenOutcome) (hv : validReq data) (hk : env.openai_api_key = none) :
    api_generate env data outcome =
      (⟨500, errorBody "サーバ設定エラー: OPENAI_API_KEY が未設定です"⟩, 0) := by
  obtain ⟨h1, h2, h3⟩ := hv
  have h2n : ¬(normLang data ≠ "ja" ∧ normLang data ≠ "en") := by
    rcases h2 with e | e <;> simp [e]
  have h3n : ¬(normTone data ≠ "standard" ∧ normTone data ≠ "overkill") := by
    rcases h3 with e | e <;> simp [e]
  unfold api_generate
  rw [if_neg h1, if_neg h2n, if_neg h3n, if_pos (Or.inl hk)]

/-- C9 witness. -/
theorem missing_credential_yields_500_no_call_witness :
    validReq reqOk ∧ envNoKey.openai_api_key = none ∧
    api_generate envNoKey reqOk (GenOutcome.ok "x") =
      (⟨500, errorBody "サーバ設定エラー: OPENAI_API_KEY が未設定です"⟩, 0) :=
  ⟨by decide, rfl,
   missing_credential_yields_500_no_call envNoKey reqOk (GenOutcome.ok "x") (by decide) rfl⟩

/-- C10: with `OPENAI_API_KEY` unset, a request whose body fails
validation is still answered 400 (validation precedes the credential
check), with zero capability calls. -/
theorem validation_precedes_credential_check (env : Env) (data : ReqData)
    (outcome : GenOutcome) (_hk : env.openai_api_key = none)
    (h : normTerm data = "" ∨ (normLang data ≠ "ja" ∧ normLang data ≠ "en") ∨
         (normTone data ≠ "standard" ∧ normTone data ≠ "overkill")) :
    (api_generate env data outcome).1.status = 400 ∧ (api_generate env data outcome).2 = 0 := by
  obtain ⟨m, he, _⟩ := api_generate_invalid env data outcome h
  rw [he]
  exact ⟨rfl, rfl⟩

/-- C10 witness. -/
theorem validation_precedes_credential_check_witness :
    envNoKey.openai_api_key = none ∧ normTerm reqEmptyTerm = "" ∧
    (api_generate envNoKey reqEmptyTerm (GenOutcome.ok "x")).1.status = 400 ∧
    (api_generate envNoKey reqEmptyTerm (GenOutcome.ok "x")).2 = 0 :=
  ⟨rfl, rfl,
   (validation_precedes_credential_check envNoKey reqEmptyTerm (GenOutcome.ok "x") rfl
     (Or.inl rfl)).1,
   (validation_precedes_credential_check envNoKey reqEmptyTerm (GenOutcome.ok "x") rfl
     (Or.inl rfl)).2⟩

/-- C3 counterexample: the handler parses the raw text unchanged; raw text
wrapped in triple-backtick fences does not parse to its inner content but
fails to decode, yielding 502, while the stripped inner content would
parse. -/
theorem fences_not_stripped_before_parse :
    jsonLoads fencedText = none ∧
    stripFences fencedText = "\x7b\"service_name\": \"Amazon Example\"\x7d" ∧
    jsonLoads (stripFences fencedText) =
      some (Json.obj [("service_name", Json.str "Amazon Example")]) ∧
    (api_generate envK reqOk (GenOutcome.ok fencedText)).1.status = 502 :=
  ⟨rfl, rfl, rfl, rfl⟩

/-- C3 (amended): no fence stripping is performed before JSON parsing: the
raw text is passed to `json.loads` unchanged, and any raw text that does
not decode as-is (fenced output included) is answered 502 with the fixed
JSON-decode error message. -/
theorem undecodable_text_yields_502_decode_error (env : Env) (data : ReqData) (text : String)
    (hv : validReq data) (hk : hasApiKey env) (hj : jsonLoads text = none) :
    api_generate env data (GenOutcome.ok text) =
      (⟨502, errorBody "LLM出力が不正なJSONでした。"⟩, 1) := by
  rw [api_generate_try env data _ hv.1 hv.2.1 hv.2.2 hk.1 hk.2]
  simp only [handleOutcome, hj]

/-- C3 witness (instantiated at the fenced text). -/
theorem undecodable_text_yields_502_decode_error_witness :
    validReq reqOk ∧ hasApiKey envK ∧ jsonLoads fencedText = none ∧
    api_generate envK reqOk (GenOutcome.ok fencedText) =
      (⟨502, errorBody "LLM出力が不正なJSONでした。"⟩, 1) :=
  ⟨by decide, by decide, rfl,
   undecodable_text_yields_502_decode_error envK reqOk fencedText (by decide) (by decide) rfl⟩

/-- C4 counterexample: a payload in which the declared `highlights` field
is absent still validates, the field being silently defaulted to the
empty list — validation does not fail for absent list fields. -/
theorem absent_list_field_silently_defaults :
    dictGet (specObjKvs []) "highlights" = none ∧
    (serviceSpecValidate (specObjWith [])).map ServiceSpec.highlights = some [] ∧
    (serviceSpecValidate (specObjWith [])).isSome = true :=
  ⟨rfl, rfl, rfl⟩

/-- C4 (amended): a payload in which any of the four required scalar
fields (`service_name`, `tagline`, `summary`, `sample_cli`) is absent
fails validation, and on a valid, credentialed request the handler
answers 502 with the fixed validation-error message; the list fields
(`highlights`, `features`, `integrations`, `getting_started`, `pricing`,
`faqs`) are instead silently defaulted to `[]` when absent. -/
theorem absent_required_scalar_fails_502 (env : Env) (data : ReqData) (text : String)
    (kvs : List (String × Json))
    (hv : validReq data) (hk : hasApiKey env)
    (hp : jsonLoads text = some (Json.obj kvs))
    (hm : dictGet kvs "service_name" = none ∨ dictGet kvs "tagline" = none ∨
          dictGet kvs "summary" = none ∨ dictGet kvs "sample_cli" = none) :
    api_generate env data (GenOutcome.ok text) =
      (⟨502, errorBody "LLM出力の検証に失敗しました。"⟩, 1) := by
  have hval : serviceSpecValidate (Json.obj kvs) = none := by
    apply validate_none_of_missing
    rcases hm with h | h | h | h
    · exact Or.inl (by rw [h]; rfl)
    · exact Or.inr (Or.inl (by rw [h]; rfl))
    · exact Or.inr (Or.inr (Or.inl (by rw [h]; rfl)))
    · exact Or.inr (Or.inr (Or.inr (by rw [h]; rfl)))
  rw [api_generate_try env data _ hv.1 hv.2.1 hv.2.2 hk.1 hk.2]
  simp only [handleOutcome, hp, hval]

/-- C4 witness (payload missing `sample_cli`). -/
theorem absent_required_scalar_fails_502_witness :
    validReq reqOk ∧ hasApiKey envK ∧
    jsonLoads missingCliText = some (Json.obj missingCliKvs) ∧
    dictGet missingCliKvs "sample_cli" = none ∧
    api_generate envK reqOk (GenOutcome.ok missingCliText) =
      (⟨502, errorBody "LLM出力の検証に失敗しました。"⟩, 1) :=
  ⟨by decide, by decide, rfl, rfl,
   absent_required_scalar_fails_502 envK reqOk missingCliText missingCliKvs (by decide)
     (by decide) rfl (Or.inr (Or.inr (Or.inr rfl)))⟩

/-- C5 counterexample: a payload whose `features` field is a single plain
string validates successfully — in the validated artifact `features` is
neither a sequence of records nor constrained to 3 to 7 items. -/
theorem features_plain_strings_validated :
    (serviceSpecValidate (specObjWith ["a"])).map ServiceSpec.features = some ["a"] ∧
    (serviceSpecValidate (specObjWith ["a"])).isSome = true :=
  ⟨rfl, rfl⟩

/-- C5 (amended): `features` is an ordered sequence of plain strings: the
schema descriptor sent to the generation capability declares it as an
array of string items with `minItems` 5 and `maxItems` 7, and the
server-side validation accepts any list of strings whatever its
length. -/
theorem features_schema_is_string_array_5_to_7 (lang : String) (xs : List String) :
    featuresSchemaOf lang = some featuresNode ∧
    (serviceSpecValidate (specObjWith xs)).map ServiceSpec.features = some xs := by
  constructor
  · rfl
  · rw [specObjWith_validate]
    rfl

/-- C8: in the schema descriptor built for the generation capability,
every node of type "object" has `additionalProperties` set to `false` and
a `required` list equal, as a set, to its declared property names. -/
theorem schema_objects_required_and_closed (lang : String) :
    objectNodesStrict (build_service_spec_json_schema lang) = true := rfl
